import Mathlib

/-!
Verification of the Docker container-session adapter
(`src/minisweagent/environments/docker.py`).

The module is a thin wrapper around the container runtime's command-line
tool.  We embed it shallowly: the configuration dataclass and the session
object become structures; each method becomes a pure function taking the
external world as a function from a subprocess invocation (argument
vector plus timeout) to the child process's outcome, and returning the
raised exception or result, the post-state of the session, and the trace
of subprocess invocations made.
-/

set_option autoImplicit false

/-- Mirrors `DockerEnvironmentConfig`: image (required), working directory,
explicit container environment variables (a Python dict, modelled as an
ordered association list with the dict's iteration order), names of host
variables to forward, per-command timeout (seconds), runtime executable,
extra `run` arguments, max container lifetime (a `sleep` duration string),
image-pull timeout (seconds) and the optional pre-existing container id. -/
structure DockerEnvironmentConfig where
  image : String
  cwd : String := "/"
  env : List (String × String) := []
  forward_env : List String := []
  timeout : Nat := 30
  executable : String := "docker"
  run_args : List String := ["--rm"]
  container_timeout : String := "2h"
  pull_timeout : Nat := 120
  container_id : Option String := none
  deriving DecidableEq, Repr

/-- Mirrors `DockerEnvironment`: the resolved configuration plus the single
nullable `container_id` attribute. -/
structure DockerEnvironment where
  config : DockerEnvironmentConfig
  container_id : Option String
  deriving DecidableEq, Repr

/-- One `subprocess.run` invocation: the argument vector and the `timeout=`
argument in seconds. -/
structure Invocation where
  cmd : List String
  timeout : Option Nat
  deriving DecidableEq, Repr

/-- Outcome of a child process: it completed with captured output streams and
an exit status, or it was killed by the timeout mechanism
(`subprocess.TimeoutExpired`). -/
inductive ProcResult where
  | completed (stdout : String) (stderr : String) (returncode : Int)
  | timedOut
  deriving DecidableEq, Repr

/-- The external world: what each subprocess invocation does. -/
abbrev World := Invocation → ProcResult

/-- The exceptions the adapter can let escape.  `calledProcessError` and
`timeoutExpired` are the raw `subprocess` exceptions; the three
`container*` / `timeoutChecking` constructors stand for the contextual
`RuntimeError` messages the adapter itself constructs, each carrying the
container id the message names:
  * `containerNotFound cid`   — "Container <cid> not found or docker error."
  * `timeoutChecking cid`     — "Timeout checking container <cid>."
  * `containerNotRunning cid` — "Container <cid> is not running. Please start it first."
`assertionError` is Python's `AssertionError` with its message and
`valueError` the unpack failure in `full_id, name = ....split()`. -/
inductive PyError where
  | calledProcessError (returncode : Int) (stderr : String)
  | timeoutExpired
  | containerNotFound (cid : String)
  | timeoutChecking (cid : String)
  | containerNotRunning (cid : String)
  | assertionError (msg : String)
  | valueError
  deriving DecidableEq, Repr

/-- An error is wrapped when it is one of the contextual `RuntimeError`s the
adapter constructs itself (naming the container id); the raw subprocess
exceptions and the assertion/unpack errors are not wrapped. -/
def PyError.isWrapped : PyError → Bool
  | .containerNotFound _ => true
  | .timeoutChecking _ => true
  | .containerNotRunning _ => true
  | _ => false

/-- A Python value as it appears in the returned dict. -/
inductive PyValue where
  | str (s : String)
  | int (i : Int)
  deriving DecidableEq, Repr

/-- Python `str.strip()` with no arguments: remove leading and trailing
whitespace. -/
def pyStrip (s : String) : String :=
  ⟨((s.data.dropWhile Char.isWhitespace).reverse.dropWhile Char.isWhitespace).reverse⟩

/-- The creation command built by `_start_container`:
`<executable> run -d --name <name> -w <cwd> <run_args...> <image> sleep <container_timeout>`. -/
def startCmd (config : DockerEnvironmentConfig) (container_name : String) : List String :=
  [config.executable, "run", "-d", "--name", container_name, "-w", config.cwd]
    ++ config.run_args ++ [config.image, "sleep", config.container_timeout]

/-- Model of `_start_container`: runs the creation command with `check=True` and
`timeout=pull_timeout`; on success stores the trimmed captured stdout as
`self.container_id`.  With `check=True`, a non-zero exit status raises
`CalledProcessError` and exceeding the timeout raises `TimeoutExpired`;
neither is caught, so both escape raw. -/
def startContainer (world : World) (self : DockerEnvironment) (container_name : String) :
    Except PyError Unit × DockerEnvironment × List Invocation :=
  let inv : Invocation := ⟨startCmd self.config container_name, some self.config.pull_timeout⟩
  match world inv with
  | .timedOut => (.error .timeoutExpired, self, [inv])
  | .completed out err rc =>
      if rc = 0 then
        (.ok (), { self with container_id := some (pyStrip out) }, [inv])
      else
        (.error (.calledProcessError rc err), self, [inv])

/-- First inspect command of `_attach_to_container`:
`<executable> inspect -f "\x7b\x7b.State.Running\x7d\x7d" <container_id>`. -/
def inspectRunningCmd (config : DockerEnvironmentConfig) (container_id : String) : List String :=
  [config.executable, "inspect", "-f", "\x7b\x7b.State.Running\x7d\x7d", container_id]

/-- Second inspect command of `_attach_to_container`:
`<executable> inspect -f "\x7b\x7b.Id\x7d\x7d \x7b\x7b.Name\x7d\x7d" <container_id>`. -/
def inspectInfoCmd (config : DockerEnvironmentConfig) (container_id : String) : List String :=
  [config.executable, "inspect", "-f", "\x7b\x7b.Id\x7d\x7d \x7b\x7b.Name\x7d\x7d", container_id]

/-- Python `str.split()` with no arguments: split on runs of whitespace,
discarding empty pieces. -/
def pySplit (s : String) : List String :=
  (s.split fun c => c.isWhitespace).filter (fun t => t ≠ "")

/-- Model of `_attach_to_container`: probe the running state with a 10-second timeout,
wrapping a non-zero exit as "not found or docker error" and a timeout as
"Timeout checking container"; reject a reported state other than `"true"`;
then run the id/name probe (whose `CalledProcessError` / `TimeoutExpired`
are not caught), unpack exactly two whitespace-separated tokens, strip the
leading `/` from the name (used only for logging), and only then assign
`self.container_id := full_id`. -/
def attachToContainer (world : World) (self : DockerEnvironment) (container_id : String) :
    Except PyError Unit × DockerEnvironment × List Invocation :=
  let inv1 : Invocation := ⟨inspectRunningCmd self.config container_id, some 10⟩
  match world inv1 with
  | .timedOut => (.error (.timeoutChecking container_id), self, [inv1])
  | .completed out _err rc =>
      if rc ≠ 0 then
        (.error (.containerNotFound container_id), self, [inv1])
      else if pyStrip out ≠ "true" then
        (.error (.containerNotRunning container_id), self, [inv1])
      else
        let inv2 : Invocation := ⟨inspectInfoCmd self.config container_id, some 10⟩
        match world inv2 with
        | .timedOut => (.error .timeoutExpired, self, [inv1, inv2])
        | .completed out2 err2 rc2 =>
            if rc2 ≠ 0 then
              (.error (.calledProcessError rc2 err2), self, [inv1, inv2])
            else
              match pySplit (pyStrip out2) with
              | [full_id, name] =>
                  let _display := name.dropWhile (fun c => c = '/')
                  (.ok (), { self with container_id := some full_id }, [inv1, inv2])
              | _ => (.error .valueError, self, [inv1, inv2])

/-- The `-e name=value` flags contributed by the forwarded host variables:
one entry per name of `forward_env` that is set in the host environment
(`os.getenv(key) is not None`), in the list's order; unset names produce
nothing. -/
def forwardedFlags (forward_env : List String) (hostEnv : String → Option String) : List String :=
  forward_env.flatMap fun key =>
    match hostEnv key with
    | some value => ["-e", key ++ "=" ++ value]
    | none => []

/-- The `-e name=value` flags contributed by the explicitly configured `env`
dict, in its iteration order. -/
def explicitFlags (env : List (String × String)) : List String :=
  env.flatMap fun kv => ["-e", kv.1 ++ "=" ++ kv.2]

/-- The full exec argument vector built by `execute`:
`<executable> exec -w <cwd> [-e K=V]... <container_id> bash -lc <command>`,
with the forwarded flags first and the explicit `env` flags after them. -/
def execCmd (config : DockerEnvironmentConfig) (hostEnv : String → Option String)
    (container_id cwd command : String) : List String :=
  [config.executable, "exec", "-w", cwd]
    ++ forwardedFlags config.forward_env hostEnv
    ++ explicitFlags config.env
    ++ [container_id, "bash", "-lc", command]

/-- Model of `cwd = cwd or self.config.cwd`: Python truthiness, so the empty string
falls back to the configured working directory. -/
def resolvedCwd (config : DockerEnvironmentConfig) (cwd : String) : String :=
  if cwd = "" then config.cwd else cwd

/-- Model of `timeout=timeout or self.config.timeout`: Python truthiness, so both
`None` and `0` fall back to the configured per-command timeout. -/
def resolvedTimeout (config : DockerEnvironmentConfig) (timeout : Option Nat) : Nat :=
  match timeout with
  | none => config.timeout
  | some n => if n = 0 then config.timeout else n

/-- Model of `execute(command, cwd="", *, timeout=None)`: resolves the defaults by
truthiness, asserts a truthy `container_id` (message "Container not
started") before any subprocess invocation, builds the exec vector and
runs it without `check`, with stderr merged into stdout.  The completed
process yields the dict `{"output": stdout, "returncode": returncode}`
(stdout here is already the combined stream); only `TimeoutExpired`
escapes.  The method assigns no attribute, so the post-state is the
input state. -/
def execute (world : World) (hostEnv : String → Option String) (self : DockerEnvironment)
    (command : String) (cwd : String := "") (timeout : Option Nat := none) :
    Except PyError (List (String × PyValue)) × DockerEnvironment × List Invocation :=
  let wd := resolvedCwd self.config cwd
  match self.container_id with
  | none => (.error (.assertionError "Container not started"), self, [])
  | some cid =>
      if cid = "" then
        (.error (.assertionError "Container not started"), self, [])
      else
        let inv : Invocation :=
          ⟨execCmd self.config hostEnv cid wd command, some (resolvedTimeout self.config timeout)⟩
        match world inv with
        | .timedOut => (.error .timeoutExpired, self, [inv])
        | .completed out _err rc =>
            (.ok [("output", .str out), ("returncode", .int rc)], self, [inv])

/-- The shell pipeline `cleanup` launches via `subprocess.Popen(..., shell=True)`. -/
def stopPipeline (config : DockerEnvironmentConfig) (container_id : String) : String :=
  "(timeout 60 " ++ config.executable ++ " stop " ++ container_id ++ " || "
    ++ config.executable ++ " rm -f " ++ container_id ++ ") >/dev/null 2>&1 &"

/-- Model of `cleanup`: when `container_id` is set, fire-and-forget the stop/remove
pipeline as a detached background process; otherwise do nothing.  Returns
the (unchanged) post-state and the list of background commands spawned;
the return type has no exception component because the method raises
nothing — the pipeline's outcome is unobserved. -/
def cleanup (self : DockerEnvironment) : DockerEnvironment × List String :=
  match self.container_id with
  | none => (self, [])
  | some cid => (self, [stopPipeline self.config cid])

/-- The environment entries `execute` injects, in order: the forwarded host
variables that are set, then the explicitly configured `env` entries. -/
def envEntries (config : DockerEnvironmentConfig) (hostEnv : String → Option String) :
    List (String × String) :=
  config.forward_env.filterMap (fun key => (hostEnv key).map (fun v => (key, v))) ++ config.env

/-- Last-write-wins reading of an ordered list of `name=value` entries, as
the runtime applies repeated `-e` flags for the same name. -/
def lastWins (entries : List (String × String)) (key : String) : Option String :=
  (entries.reverse.find? (fun kv => kv.1 == key)).map (fun kv => kv.2)

/-! ### Concrete fixtures used by counterexamples and witnesses -/

/-- A minimal configuration: all defaults, image `alpine`. -/
def cfg0 : DockerEnvironmentConfig := { image := "alpine" }

/-- A session whose identifier is set to `"c0"`. -/
def sess0 : DockerEnvironment := { config := cfg0, container_id := some "c0" }

/-- A session whose identifier is unset. -/
def sessNone : DockerEnvironment := { config := cfg0, container_id := none }

/-- An empty host environment. -/
def hostNone : String → Option String := fun _ => none

/-- A world in which every child process exits with status 7 and no output. -/
def world7 : World := fun _ => .completed "" "" 7

/-- A world in which every child process exits with status 1 and stderr `boom`. -/
def worldBoom : World := fun _ => .completed "" "boom" 1

/-- A world in which every child process is killed by its timeout. -/
def worldHang : World := fun _ => .timedOut

/-- A world in which the id/name probe of `attach` hangs until its timeout
while every other child process reports a running container. -/
def worldInfoHang : World := fun inv =>
  if inv.cmd = inspectInfoCmd cfg0 "c0" then .timedOut else .completed "true" "" 0

/-! ### C1 -/

/-- C1 (counterexample): on a started session, `execute "exit 7"` against a
runtime reporting exit status 7 succeeds with the keys `output` and
`returncode`; the key `exit_code` claimed by the specification does not
occur, so the result does not have exactly the keys `output` and
`exit_code`. -/
theorem C1_counterexample :
    (execute world7 hostNone sess0 "exit 7").1
        = .ok [("output", .str ""), ("returncode", .int 7)]
      ∧ ((execute world7 hostNone sess0 "exit 7").1.toOption.map
          (fun d => d.map Prod.fst)) = some ["output", "returncode"]
      ∧ "exit_code" ∉ ["output", "returncode"] := by
  refine ⟨rfl, rfl, ?_⟩
  decide

/-- C1 (amended): for every run of `execute` on a session whose identifier is
set and truthy, in which the exec child completes (with any exit status),
the result is the dict with exactly the keys `output` (the combined
stdout+stderr text) and `returncode` (the exit status as an integer); in
particular a non-zero exit status inside the container is reported in
`returncode` and never raised. -/
theorem C1_execute_result (world : World) (hostEnv : String → Option String)
    (self : DockerEnvironment) (command cwd : String) (timeout : Option Nat)
    (cid : String) (hset : self.container_id = some cid) (hne : cid ≠ "")
    (out err : String) (rc : Int)
    (hrun : world ⟨execCmd self.config hostEnv cid (resolvedCwd self.config cwd) command,
        some (resolvedTimeout self.config timeout)⟩ = .completed out err rc) :
    (execute world hostEnv self command cwd timeout).1
      = .ok [("output", .str out), ("returncode", .int rc)] := by
  simp [execute, hset, hne, hrun]

/-- C1 (witness): the amended statement at the `exit 7` scenario. -/
theorem C1_witness :
    (execute world7 hostNone sess0 "exit 7").1
      = .ok [("output", .str ""), ("returncode", .int 7)] :=
  C1_execute_result world7 hostNone sess0 "exit 7" "" none "c0" rfl
    (by decide) "" "" 7 rfl

/-! ### C3 -/

/-- C3: `execute` on a session whose identifier is unset fails immediately
with the assertion error "Container not started" and makes no subprocess
invocation (empty trace), leaving the session unchanged — for every world,
host environment, configuration and arguments. -/
theorem C3_execute_unset (world : World) (hostEnv : String → Option String)
    (config : DockerEnvironmentConfig) (command cwd : String) (timeout : Option Nat) :
    execute world hostEnv { config := config, container_id := none } command cwd timeout
      = (.error (.assertionError "Container not started"),
          { config := config, container_id := none }, []) := rfl

/-! ### C2 -/

/-- C2 (counterexample): a start failure propagates as the raw subprocess
error, not a wrapped contextual one — with a runtime exiting non-zero,
`_start_container` lets the bare `CalledProcessError` escape. -/
theorem C2_counterexample :
    (startContainer worldBoom sessNone "minisweagent-00000000").1
        = .error (.calledProcessError 1 "boom")
      ∧ (PyError.calledProcessError 1 "boom").isWrapped = false := by
  exact ⟨rfl, rfl⟩

/-- C2 (amended): only the first inspect call of attach wraps its failures
with contextual messages (container id); failures of `_start_container`
(non-zero exit or timeout) and of the second inspect call of attach
propagate as the raw subprocess errors.  The conjuncts state, for every
world, session state, container id and generated name: (1) a first-inspect
timeout and (2) a first-inspect non-zero exit yield the wrapped errors;
(3) a non-zero exit and (4) a timeout of the creation command yield the
raw subprocess errors; (5) a timeout and (6) a non-zero exit of the
second inspect — reached when the first probe reports `true` — yield the
raw subprocess errors; and (7) exclusively the first probe wraps: any
wrapped error returned by attach leaves a trace ending at the first
probe (the second inspect was never invoked), and start never returns a
wrapped error at all. -/
theorem C2_wrapping_policy (world : World) (self : DockerEnvironment)
    (container_id container_name : String) :
    (world ⟨inspectRunningCmd self.config container_id, some 10⟩ = .timedOut →
        (attachToContainer world self container_id).1
            = .error (.timeoutChecking container_id)
          ∧ (PyError.timeoutChecking container_id).isWrapped = true)
    ∧ (∀ out err rc, rc ≠ 0 →
        world ⟨inspectRunningCmd self.config container_id, some 10⟩ = .completed out err rc →
          (attachToContainer world self container_id).1
              = .error (.containerNotFound container_id)
            ∧ (PyError.containerNotFound container_id).isWrapped = true)
    ∧ (∀ out err rc, rc ≠ 0 →
        world ⟨startCmd self.config container_name, some self.config.pull_timeout⟩
            = .completed out err rc →
          (startContainer world self container_name).1 = .error (.calledProcessError rc err)
            ∧ (PyError.calledProcessError rc err).isWrapped = false)
    ∧ (world ⟨startCmd self.config container_name, some self.config.pull_timeout⟩ = .timedOut →
        (startContainer world self container_name).1 = .error .timeoutExpired
          ∧ PyError.timeoutExpired.isWrapped = false)
    ∧ (∀ out err,
        world ⟨inspectRunningCmd self.config container_id, some 10⟩ = .completed out err 0 →
          pyStrip out = "true" →
            world ⟨inspectInfoCmd self.config container_id, some 10⟩ = .timedOut →
              (attachToContainer world self container_id).1 = .error .timeoutExpired
                ∧ PyError.timeoutExpired.isWrapped = false)
    ∧ (∀ out err out2 err2 rc2, rc2 ≠ 0 →
        world ⟨inspectRunningCmd self.config container_id, some 10⟩ = .completed out err 0 →
          pyStrip out = "true" →
            world ⟨inspectInfoCmd self.config container_id, some 10⟩
                = .completed out2 err2 rc2 →
              (attachToContainer world self container_id).1
                  = .error (.calledProcessError rc2 err2)
                ∧ (PyError.calledProcessError rc2 err2).isWrapped = false)
    ∧ (∀ e, (attachToContainer world self container_id).1 = .error e →
        e.isWrapped = true →
          (attachToContainer world self container_id).2.2
            = [⟨inspectRunningCmd self.config container_id, some 10⟩])
    ∧ (∀ e, (startContainer world self container_name).1 = .error e →
        e.isWrapped = false) := by
  refine ⟨fun h1 => ⟨by simp [attachToContainer, h1], rfl⟩,
    fun out err rc hrc h1 => ⟨by simp [attachToContainer, h1, hrc], rfl⟩,
    fun out err rc hrc h1 => ⟨by simp [startContainer, h1, hrc], rfl⟩,
    fun h1 => ⟨by simp [startContainer, h1], rfl⟩,
    fun out err h1 htrue h2 => ⟨by simp [attachToContainer, h1, htrue, h2], rfl⟩,
    fun out err out2 err2 rc2 hrc2 h1 htrue h2 =>
      ⟨by simp [attachToContainer, h1, htrue, h2, hrc2], rfl⟩,
    ?_, ?_⟩
  · intro e he hw
    rcases h1 : world ⟨inspectRunningCmd self.config container_id, some 10⟩
      with ⟨out, err, rc⟩ | _
    · by_cases hrc : rc = 0
      · by_cases htrue : pyStrip out = "true"
        · exfalso
          rcases h2 : world ⟨inspectInfoCmd self.config container_id, some 10⟩
            with ⟨out2, err2, rc2⟩ | _
          · by_cases hrc2 : rc2 = 0
            · rcases hsp : pySplit (pyStrip out2) with _ | ⟨a, _ | ⟨b, _ | ⟨c, t⟩⟩⟩
              · simp [attachToContainer, h1, hrc, htrue, h2, hrc2, hsp] at he
                subst he
                simp [PyError.isWrapped] at hw
              · simp [attachToContainer, h1, hrc, htrue, h2, hrc2, hsp] at he
                subst he
                simp [PyError.isWrapped] at hw
              · simp [attachToContainer, h1, hrc, htrue, h2, hrc2, hsp] at he
              · simp [attachToContainer, h1, hrc, htrue, h2, hrc2, hsp] at he
                subst he
                simp [PyError.isWrapped] at hw
            · simp [attachToContainer, h1, hrc, htrue, h2, hrc2] at he
              subst he
              simp [PyError.isWrapped] at hw
          · simp [attachToContainer, h1, hrc, htrue, h2] at he
            subst he
            simp [PyError.isWrapped] at hw
        · simp [attachToContainer, h1, hrc, htrue]
      · simp [attachToContainer, h1, hrc]
    · simp [attachToContainer, h1]
  · intro e he
    rcases h1 : world ⟨startCmd self.config container_name, some self.config.pull_timeout⟩
      with ⟨out, err, rc⟩ | _
    · by_cases hrc : rc = 0
      · simp [startContainer, h1, hrc] at he
      · simp [startContainer, h1, hrc] at he
        subst he
        simp [PyError.isWrapped]
    · simp [startContainer, h1] at he
      subst he
      simp [PyError.isWrapped]

/-- C2 (witness): the wrapping policy at concrete worlds — a hanging first
inspect yields the wrapped timeout error, a failing creation command
yields the raw `CalledProcessError`, and a hanging second inspect (after
the first probe reported `true`) yields the raw `TimeoutExpired`. -/
theorem C2_witness :
    (attachToContainer worldHang sessNone "c0").1 = .error (.timeoutChecking "c0")
      ∧ (startContainer worldBoom sessNone "n").1 = .error (.calledProcessError 1 "boom")
      ∧ (attachToContainer worldInfoHang sessNone "c0").1 = .error .timeoutExpired := by
  refine ⟨((C2_wrapping_policy worldHang sessNone "c0" "n").1 rfl).1, ?_, ?_⟩
  · exact (((C2_wrapping_policy worldBoom sessNone "c0" "n").2.2.1)
      "" "boom" 1 (by decide) rfl).1
  · exact (((C2_wrapping_policy worldInfoHang sessNone "c0" "n").2.2.2.2.1)
      "true" "" (by decide) (by decide) (by decide)).1

/-! ### C4 -/

/-- C4: an attach attempt against an identifier that does not exist (the
inspect probe exits non-zero) or whose reported running-state is not
`"true"` fails with the corresponding attach error and returns the
session state unchanged — in particular the identifier field is exactly
what it was, so if it was unset it remains unset.  The trace shows only
the single state probe. -/
theorem C4_attach_atomic (world : World) (self : DockerEnvironment) (container_id : String) :
    (∀ out err rc, rc ≠ 0 →
        world ⟨inspectRunningCmd self.config container_id, some 10⟩ = .completed out err rc →
          attachToContainer world self container_id
            = (.error (.containerNotFound container_id), self,
                [⟨inspectRunningCmd self.config container_id, some 10⟩]))
    ∧ (∀ out err,
        world ⟨inspectRunningCmd self.config container_id, some 10⟩ = .completed out err 0 →
          pyStrip out ≠ "true" →
            attachToContainer world self container_id
              = (.error (.containerNotRunning container_id), self,
                  [⟨inspectRunningCmd self.config container_id, some 10⟩])) := by
  constructor
  · intro out err rc hrc h1
    simp [attachToContainer, h1, hrc]
  · intro out err h1 hne
    simp [attachToContainer, h1, hne]

/-- C4 (witness): attaching to `"ghost"` in a world where every inspect exits
with status 1 fails with the not-found error and leaves the unset
identifier unset. -/
theorem C4_witness :
    attachToContainer worldBoom sessNone "ghost"
      = (.error (.containerNotFound "ghost"), sessNone,
          [⟨inspectRunningCmd cfg0 "ghost", some 10⟩]) :=
  (C4_attach_atomic worldBoom sessNone "ghost").1 "" "boom" 1 (by decide) rfl

/-! ### C6 -/

/-- C6: every start performs exactly one subprocess invocation, whose argument
vector is exactly the runtime executable followed by `run`, `-d`,
`--name <generated name>`, `-w <configured cwd>`, the configured extra run
arguments, the image and `sleep <container_timeout>`, run with a timeout
equal to the configured pull timeout; and whenever that invocation
completes with exit status 0, the captured stdout trimmed of surrounding
whitespace becomes the session's container identifier. -/
theorem C6_start_command (world : World) (self : DockerEnvironment) (container_name : String) :
    (startCmd self.config container_name
        = [self.config.executable, "run", "-d", "--name", container_name,
            "-w", self.config.cwd]
            ++ self.config.run_args
            ++ [self.config.image, "sleep", self.config.container_timeout])
      ∧ (startContainer world self container_name).2.2
          = [⟨startCmd self.config container_name, some self.config.pull_timeout⟩]
      ∧ (∀ out err,
          world ⟨startCmd self.config container_name, some self.config.pull_timeout⟩
              = .completed out err 0 →
            (startContainer world self container_name).1 = .ok ()
              ∧ (startContainer world self container_name).2.1.container_id
                  = some (pyStrip out)) := by
  refine ⟨rfl, ?_, ?_⟩
  · rcases hw : world ⟨startCmd self.config container_name, some self.config.pull_timeout⟩
      with ⟨out, err, rc⟩ | _
    · simp only [startContainer, hw]
      split <;> rfl
    · simp only [startContainer, hw]
  · intro out err h1
    constructor <;> simp [startContainer, h1]

/-- C6 (witness): a creation returning stdout `" abc123\n"` with status 0
records the exact command vector and stores identifier `"abc123"`. -/
theorem C6_witness :
    (startContainer (fun _ => .completed " abc123\n" "" 0) sessNone "minisweagent-deadbeef").2.2
        = [⟨["docker", "run", "-d", "--name", "minisweagent-deadbeef", "-w", "/",
              "--rm", "alpine", "sleep", "2h"], some 120⟩]
      ∧ (startContainer (fun _ => .completed " abc123\n" "" 0)
            sessNone "minisweagent-deadbeef").2.1.container_id = some "abc123" := by
  have h := C6_start_command (fun _ => .completed " abc123\n" "" 0) sessNone "minisweagent-deadbeef"
  refine ⟨h.2.1.trans ?_, ((h.2.2 " abc123\n" "" rfl).2).trans ?_⟩
  · rfl
  · decide

/-! ### C7 -/

/-- C7: no operation clears the identifier.  `execute` returns the session
state unchanged in every outcome — in particular after an execution
timeout — and `cleanup` returns the state unchanged; `_start_container`
and `_attach_to_container` either leave the identifier field as it was or
set it to a new non-null value, never to null.  Stated for every world,
host environment, session state and arguments. -/
theorem C7_identifier_never_cleared (world : World) (hostEnv : String → Option String)
    (self : DockerEnvironment) (command cwd container_name container_id : String)
    (timeout : Option Nat) :
    (execute world hostEnv self command cwd timeout).2.1 = self
      ∧ (cleanup self).1 = self
      ∧ ((startContainer world self container_name).2.1.container_id = self.container_id
          ∨ ∃ s, (startContainer world self container_name).2.1.container_id = some s)
      ∧ ((attachToContainer world self container_id).2.1.container_id = self.container_id
          ∨ ∃ s, (attachToContainer world self container_id).2.1.container_id = some s) := by
  refine ⟨?_, ?_, ?_, ?_⟩
  · unfold execute
    dsimp only
    repeat' first
      | rfl
      | split
  · unfold cleanup
    repeat' first
      | rfl
      | split
  · unfold startContainer
    dsimp only
    repeat' first
      | exact Or.inl rfl
      | exact Or.inr ⟨_, rfl⟩
      | split
  · unfold attachToContainer
    dsimp only
    repeat' first
      | exact Or.inl rfl
      | exact Or.inr ⟨_, rfl⟩
      | split

/-! ### C8 -/

/-- C8: `cleanup` never raises (its type has no exception component), is a
no-op on an unset identifier, leaves the session state unchanged, and is
idempotent — running it again on the state it returns produces the very
same result, and when the identifier is set each run spawns the same
single detached stop/force-remove pipeline whose outcome is unobserved. -/
theorem C8_cleanup_idempotent (self : DockerEnvironment) :
    (self.container_id = none → cleanup self = (self, []))
      ∧ (cleanup self).1 = self
      ∧ cleanup (cleanup self).1 = cleanup self := by
  refine ⟨fun h => ?_, ?_, ?_⟩
  · unfold cleanup
    rw [h]
  · unfold cleanup
    rcases self.container_id with _ | cid <;> rfl
  · have hfix : (cleanup self).1 = self := by
      unfold cleanup
      rcases self.container_id with _ | cid <;> rfl
    rw [hfix]

/-- C8 (witness): on a session with the identifier unset, `cleanup` is a
no-op, and a second call returns the same result. -/
theorem C8_witness :
    cleanup sessNone = (sessNone, [])
      ∧ cleanup (cleanup sessNone).1 = cleanup sessNone :=
  ⟨(C8_cleanup_idempotent sessNone).1 rfl, (C8_cleanup_idempotent sessNone).2.2⟩

/-! ### C9 -/

/-- C9: `execute` defaults its optional arguments by truthiness — passing the
empty string for `cwd` behaves exactly like passing the configured working
directory (the fallback), and passing `0` for `timeout` behaves exactly
like not passing it at all: the whole call (result, post-state and trace)
coincides.  Stated for every world, host environment, session and
command. -/
theorem C9_truthy_defaults (world : World) (hostEnv : String → Option String)
    (self : DockerEnvironment) (command cwd : String) (timeout : Option Nat) :
    execute world hostEnv self command "" timeout
        = execute world hostEnv self command self.config.cwd timeout
      ∧ execute world hostEnv self command cwd (some 0)
          = execute world hostEnv self command cwd none := by
  constructor
  · have hcwd : resolvedCwd self.config "" = resolvedCwd self.config self.config.cwd := by
      unfold resolvedCwd
      by_cases h : self.config.cwd = "" <;> simp [h]
    unfold execute
    rw [hcwd]
  · have ht : resolvedTimeout self.config (some 0) = resolvedTimeout self.config none := by
      unfold resolvedTimeout
      simp
    unfold execute
    rw [ht]

/-! ### C5 -/

/-- The forwarded flags are exactly the flag rendering of the forwarded
entries: one `(key, value)` pair per `forward_env` name set on the host. -/
theorem forwardedFlags_eq (fe : List String) (hostEnv : String → Option String) :
    forwardedFlags fe hostEnv
      = (fe.filterMap (fun key => (hostEnv key).map (fun v => (key, v)))).flatMap
          (fun kv => ["-e", kv.1 ++ "=" ++ kv.2]) := by
  induction fe with
  | nil => rfl
  | cons k t ih =>
      simp only [forwardedFlags] at ih
      simp only [forwardedFlags, List.flatMap_cons, List.filterMap_cons]
      cases hostEnv k <;> simp [ih]

/-- In a list of entries with pairwise-distinct keys, `find?` on a key that is
present returns exactly its entry. -/
theorem find?_eq_of_nodup_keys (l : List (String × String)) (key value : String)
    (hnd : (l.map Prod.fst).Nodup) (hmem : (key, value) ∈ l) :
    l.find? (fun kv => kv.1 == key) = some (key, value) := by
  induction l with
  | nil => cases hmem
  | cons a t ih =>
      rw [List.map_cons, List.nodup_cons] at hnd
      rcases List.mem_cons.mp hmem with rfl | hmem'
      · simp [List.find?_cons]
      · have hka : (a.1 == key) = false := by
          rw [beq_eq_false_iff_ne]
          intro hk
          exact hnd.1 (hk ▸ List.mem_map_of_mem Prod.fst hmem')
        rw [List.find?_cons, hka]
        exact ih hnd.2 hmem'

/-- Searching with `find?` looks in the left part of an append first. -/
theorem find?_append_left {α : Type} (l₁ l₂ : List α) (p : α → Bool) (x : α)
    (h : l₁.find? p = some x) : (l₁ ++ l₂).find? p = some x := by
  induction l₁ with
  | nil => simp at h
  | cons a t ih =>
      rw [List.cons_append, List.find?_cons]
      rw [List.find?_cons] at h
      cases hpa : p a
      · rw [hpa] at h
        exact ih h
      · rw [hpa] at h
        exact h

/-- C5: the exec invocation is the base vector, then one `-e name=value` flag
pair per environment entry in order — the forwarded host variables that
are set (names unset on the host silently omitted) followed by the
explicitly configured entries — then the container id and the shell
invocation; and because the explicit entries come after the forwarded
ones, last-write-wins reading of the flags gives an explicitly configured
name its configured value even when it is also forwarded. -/
theorem C5_env_order (config : DockerEnvironmentConfig) (hostEnv : String → Option String)
    (container_id cwd command : String) :
    (execCmd config hostEnv container_id cwd command
        = [config.executable, "exec", "-w", cwd]
            ++ (envEntries config hostEnv).flatMap (fun kv => ["-e", kv.1 ++ "=" ++ kv.2])
            ++ [container_id, "bash", "-lc", command])
      ∧ (envEntries config hostEnv
          = config.forward_env.filterMap (fun key => (hostEnv key).map (fun v => (key, v)))
              ++ config.env)
      ∧ (∀ key value, (config.env.map Prod.fst).Nodup → (key, value) ∈ config.env →
          lastWins (envEntries config hostEnv) key = some value) := by
  refine ⟨?_, rfl, ?_⟩
  · unfold execCmd envEntries explicitFlags
    rw [forwardedFlags_eq, List.flatMap_append]
    simp only [List.append_assoc]
  · intro key value hnd hmem
    unfold lastWins envEntries
    rw [List.reverse_append]
    rw [find?_append_left _ _ _ (key, value)
      (find?_eq_of_nodup_keys _ key value
        (by rw [List.map_reverse]; exact List.nodup_reverse.mpr hnd)
        (List.mem_reverse.mpr hmem))]
    rfl

/-- A configuration forwarding `A` and `B` with explicit `env` entries
`A=2, C=3`. -/
def cfg5 : DockerEnvironmentConfig where
  image := "alpine"
  forward_env := ["A", "B"]
  env := [("A", "2"), ("C", "3")]

/-- A host environment in which only `A` is set, to `1`. -/
def host5 : String → Option String := fun k => if k = "A" then some "1" else none

/-- C5 (witness): with `forward_env = [A, B]`, host `A=1` and `B` unset, and
explicit `env = [(A, 2), (C, 3)]`, the entries are the forwarded `A=1`
followed by the explicit ones, and last-write-wins resolution of `A`
yields the explicit `2`. -/
theorem C5_witness :
    envEntries cfg5 host5 = [("A", "1"), ("A", "2"), ("C", "3")]
      ∧ lastWins (envEntries cfg5 host5) "A" = some "2" := by
  constructor
  · decide
  · exact (C5_env_order cfg5 host5 "c0" "/" "pwd").2.2 "A" "2" (by decide) (by decide)

/-! ### C10 -/

/-- C10: a forwarded name that is set on the host with the empty string as
value is still injected — the flag `name=` occurs in the exec vector; only
a name entirely absent from the host environment contributes no entry. -/
theorem C10_empty_value_forwarded (config : DockerEnvironmentConfig)
    (hostEnv : String → Option String) (container_id cwd command key : String) :
    (key ∈ config.forward_env → hostEnv key = some "" →
        (key ++ "=") ∈ execCmd config hostEnv container_id cwd command)
      ∧ (hostEnv key = none →
          ∀ value, (key, value) ∉
            config.forward_env.filterMap (fun k => (hostEnv k).map (fun v => (k, v)))) := by
  constructor
  · intro hkmem hkval
    have hflag : (key ++ "=") ∈ forwardedFlags config.forward_env hostEnv := by
      unfold forwardedFlags
      rw [List.mem_flatMap]
      refine ⟨key, hkmem, ?_⟩
      rw [hkval]
      show key ++ "=" ∈ ["-e", key ++ "=" ++ ""]
      rw [String.append_empty]
      exact List.mem_cons_of_mem _ (List.mem_cons_self _ _)
    unfold execCmd
    simp only [List.mem_append]
    exact Or.inl (Or.inl (Or.inr hflag))
  · intro hnone value hmem
    rw [List.mem_filterMap] at hmem
    obtain ⟨a, _ha, hfa⟩ := hmem
    rcases hh : hostEnv a with _ | v
    · rw [hh] at hfa
      exact Option.noConfusion hfa
    · rw [hh] at hfa
      have h2 : (a, v) = (key, value) := Option.some.inj hfa
      have h3 : a = key := congrArg Prod.fst h2
      rw [h3, hnone] at hh
      exact Option.noConfusion hh

/-- A configuration forwarding `E` and `Z`. -/
def cfg10 : DockerEnvironmentConfig where
  image := "alpine"
  forward_env := ["E", "Z"]

/-- A host environment in which only `E` is set, to the empty string. -/
def host10 : String → Option String := fun k => if k = "E" then some "" else none

/-- C10 (witness): with `forward_env = [E, Z]`, host `E=""` and `Z` unset, the
flag `E=` occurs in the exec vector, and `Z` contributes no entry. -/
theorem C10_witness :
    ("E" ++ "=") ∈ execCmd cfg10 host10 "c0" "/" "pwd"
      ∧ ("Z", "v") ∉ cfg10.forward_env.filterMap
          (fun k => (host10 k).map (fun v => (k, v))) := by
  constructor
  · exact (C10_empty_value_forwarded cfg10 host10 "c0" "/" "pwd" "E").1
      (by decide) (by decide)
  · exact (C10_empty_value_forwarded cfg10 host10 "c0" "/" "pwd" "Z").2 (by decide) "v"
